import Mathlib

/-!
Verification of the EC (embedded controller) userspace driver in `src/main.c`
of the `hyper_processor` repository.

The C program drives a two-port command/data handshake against an EC:
`ec_wait_ibf` / `ec_wait_obf` busy-poll the status port, `ec_read` / `ec_write`
are the transaction sequences, `ec_dump_selected` dumps registers 0x50..0x59,
`ec_monitor_loop` is an infinite sampling loop run on a second thread, and
`main` sequences startup.  The shallow embedding below models each function as
the sequence of port operations it issues, plus a simulated EC device (a test
double, as the testable-properties section of the design document describes) that
consumes those operations.
-/

namespace ECDriver

/-- Port number of the EC status/command port (`#define EC_SC 0x66`). -/
def EC_SC : Nat := 0x66

/-- Port number of the EC data port (`#define EC_DATA 0x62`). -/
def EC_DATA : Nat := 0x62

/-- One port access issued by the transaction engine.  `waitIbf` / `waitObf`
stand for the busy-poll loops `ec_wait_ibf` / `ec_wait_obf` (their internal
polling behaviour is modelled separately by `ec_wait_ibf_fuel` /
`ec_wait_obf_fuel`); `outb p v` is `outb(v, p)`; `inbData` is `inb(EC_DATA)`. -/
inductive PortOp : Type
  | waitIbf : PortOp
  | waitObf : PortOp
  | outb : Nat → Nat → PortOp
  | inbData : PortOp
deriving DecidableEq, Repr

/-- Command-decode state of the simulated EC device. -/
inductive ECMode : Type
  | idle : ECMode
  | readWaitAddr : ECMode
  | writeWaitAddr : ECMode
  | writeWaitVal : Nat → ECMode
deriving DecidableEq, Repr

/-- Modelled from the spec: the simulated EC test double described in the
testable-properties section of the design document ("a test double implementing
the IBF/OBF handshake", "a simulated EC that echoes writes").  It is always ready
(waits succeed immediately), decodes command byte 0x80 as read and 0x81 as
write, stores written register values, and serves reads from its register
file. -/
structure ECDev : Type where
  mode : ECMode
  regs : Nat → Nat
  out : Option Nat

/-- The simulated EC in its idle state with register file `regs`. -/
def ECDev.start (regs : Nat → Nat) : ECDev :=
  { mode := ECMode.idle, regs := regs, out := none }

/-- Modelled from the spec: one step of the simulated EC device consuming one
port operation; returns the new device state and, for a data-port read, the
byte delivered to the host. -/
def ecDevStep (d : ECDev) : PortOp → ECDev × Option Nat
  | PortOp.waitIbf => (d, none)
  | PortOp.waitObf => (d, none)
  | PortOp.outb p v =>
      if p = EC_SC then
        ({ mode := if v = 0x80 then ECMode.readWaitAddr
                   else if v = 0x81 then ECMode.writeWaitAddr
                   else ECMode.idle,
           regs := d.regs, out := d.out }, none)
      else if p = EC_DATA then
        match d.mode with
        | ECMode.idle => (d, none)
        | ECMode.readWaitAddr =>
            ({ mode := ECMode.idle, regs := d.regs, out := some (d.regs v) }, none)
        | ECMode.writeWaitAddr =>
            ({ mode := ECMode.writeWaitVal v, regs := d.regs, out := d.out }, none)
        | ECMode.writeWaitVal a =>
            ({ mode := ECMode.idle,
               regs := fun x => if x = a then v else d.regs x,
               out := d.out }, none)
      else (d, none)
  | PortOp.inbData =>
      ({ mode := d.mode, regs := d.regs, out := none }, some (d.out.getD 0))

/-- Run the simulated EC over a list of port operations, collecting the bytes
delivered by data-port reads. -/
def runTrace (d : ECDev) : List PortOp → ECDev × List Nat
  | [] => (d, [])
  | op :: rest =>
      let s := ecDevStep d op
      let r := runTrace s.1 rest
      (r.1, s.2.toList ++ r.2)

/-- Port operations issued by one call of `ec_read(addr)` (src/main.c lines
27-34): wait IBF clear, write command byte 0x80 to the command port, wait IBF
clear, write the address to the data port, wait OBF set, read the data port. -/
def ec_readTrace (addr : Nat) : List PortOp :=
  [PortOp.waitIbf, PortOp.outb EC_SC 0x80,
   PortOp.waitIbf, PortOp.outb EC_DATA addr,
   PortOp.waitObf, PortOp.inbData]

/-- Port operations issued by one call of `ec_write(addr, value)` (src/main.c
lines 36-43): three IBF-gated writes — command byte 0x81, the address, the
value — and no data-port read. -/
def ec_writeTrace (addr value : Nat) : List PortOp :=
  [PortOp.waitIbf, PortOp.outb EC_SC 0x81,
   PortOp.waitIbf, PortOp.outb EC_DATA addr,
   PortOp.waitIbf, PortOp.outb EC_DATA value]

/-- `ec_read(addr)` run against the simulated EC: the final device state and
the byte the function returns (the one data-port read of its trace). -/
def ec_read_run (d : ECDev) (addr : Nat) : ECDev × Nat :=
  let r := runTrace d (ec_readTrace addr)
  (r.1, r.2.headD 0)

lemma runTrace_readTrace (regs : Nat → Nat) (a : Nat) :
    runTrace (ECDev.start regs) (ec_readTrace a) = (ECDev.start regs, [regs a]) := by
  simp [runTrace, ec_readTrace, ecDevStep, ECDev.start, EC_SC, EC_DATA]

lemma ec_read_run_start (regs : Nat → Nat) (a : Nat) :
    ec_read_run (ECDev.start regs) a = (ECDev.start regs, regs a) := by
  simp [ec_read_run, runTrace_readTrace]

lemma runTrace_append (d : ECDev) (l1 l2 : List PortOp) :
    runTrace d (l1 ++ l2) =
      ((runTrace (runTrace d l1).1 l2).1,
        (runTrace d l1).2 ++ (runTrace (runTrace d l1).1 l2).2) := by
  induction l1 generalizing d with
  | nil => simp [runTrace]
  | cons op rest ih => simp [runTrace, ih]

/-- C1: one invocation of `ec_read` issues exactly, in this order: an IBF-clear
wait then command byte 0x80 to the command port, an IBF-clear wait then the
register address to the data port, an OBF-set wait then one data-port read —
and no other port accesses; run against the simulated EC it returns the byte
that data-port read delivers, namely the value the EC holds for that address. -/
theorem ec_read_transaction_spec (regs : Nat → Nat) (addr : Nat) :
    ec_readTrace addr =
      [PortOp.waitIbf, PortOp.outb EC_SC 0x80,
       PortOp.waitIbf, PortOp.outb EC_DATA addr,
       PortOp.waitObf, PortOp.inbData]
    ∧ (runTrace (ECDev.start regs) (ec_readTrace addr)).2 = [regs addr]
    ∧ ec_read_run (ECDev.start regs) addr = (ECDev.start regs, regs addr) := by
  refine ⟨rfl, ?_, ec_read_run_start regs addr⟩
  rw [runTrace_readTrace]

/-- C2: one invocation of `ec_write` issues exactly three port writes, each
preceded by an IBF-clear wait — command byte 0x81 to the command port, the
address to the data port, the value to the data port — with no OBF wait and no
data-port read; run against the simulated EC it delivers no byte to the host
and updates exactly the addressed register to the written value. -/
theorem ec_write_transaction_spec (regs : Nat → Nat) (addr value : Nat) :
    ec_writeTrace addr value =
      [PortOp.waitIbf, PortOp.outb EC_SC 0x81,
       PortOp.waitIbf, PortOp.outb EC_DATA addr,
       PortOp.waitIbf, PortOp.outb EC_DATA value]
    ∧ (ec_writeTrace addr value).count PortOp.inbData = 0
    ∧ (ec_writeTrace addr value).count PortOp.waitObf = 0
    ∧ (runTrace (ECDev.start regs) (ec_writeTrace addr value)).2 = []
    ∧ ∀ x : Nat, (runTrace (ECDev.start regs) (ec_writeTrace addr value)).1.regs x
        = if x = addr then value else regs x := by
  refine ⟨rfl, by simp [ec_writeTrace, List.count_cons], by simp [ec_writeTrace, List.count_cons], ?_, ?_⟩ <;>
    simp [runTrace, ec_writeTrace, ecDevStep, ECDev.start, EC_SC, EC_DATA]

/-- C4: for all register addresses A and values V, a write-register(A, V)
immediately followed by a read-register(A), run against the simulated EC that
implements the handshake and echoes writes, delivers exactly the byte V. -/
theorem ec_write_read_roundtrip (regs : Nat → Nat) (A V : Nat) :
    (runTrace (ECDev.start regs) (ec_writeTrace A V ++ ec_readTrace A)).2 = [V] := by
  rw [runTrace_append]
  simp [runTrace, ec_writeTrace, ec_readTrace, ecDevStep, ECDev.start, EC_SC, EC_DATA]

/-- The busy-poll loop of `ec_wait_ibf` (src/main.c lines 11-13):
`while (inb(EC_SC) & 0x02);`.  `status k` is the value the k-th status-port
read delivers.  The loop has no timeout in the source; `fuel` bounds how many
polls the model is allowed to observe, and `none` means the loop was still
spinning after `fuel` polls.  `some n` means the loop returned after the poll
at index `n` read a status byte with bit 1 clear. -/
def ec_wait_ibf_fuel (status : Nat → Nat) : Nat → Nat → Option Nat
  | 0, _ => none
  | fuel + 1, k =>
      if status k &&& 0x02 ≠ 0 then ec_wait_ibf_fuel status fuel (k + 1)
      else some k

/-- The busy-poll loop of `ec_wait_obf` (src/main.c lines 15-17):
`while (!(inb(EC_SC) & 0x01));`, in the same fuel-indexed presentation as
`ec_wait_ibf_fuel`.  `some n` means the loop returned after the poll at index
`n` read a status byte with bit 0 set. -/
def ec_wait_obf_fuel (status : Nat → Nat) : Nat → Nat → Option Nat
  | 0, _ => none
  | fuel + 1, k =>
      if status k &&& 0x01 = 0 then ec_wait_obf_fuel status fuel (k + 1)
      else some k

lemma ec_wait_ibf_fuel_sound (status : Nat → Nat) :
    ∀ fuel k n, ec_wait_ibf_fuel status fuel k = some n →
      status n &&& 0x02 = 0 ∧ k ≤ n ∧ ∀ m, k ≤ m → m < n → status m &&& 0x02 ≠ 0 := by
  intro fuel
  induction fuel with
  | zero => intro k n h; simp [ec_wait_ibf_fuel] at h
  | succ fuel ih =>
      intro k n h
      rw [ec_wait_ibf_fuel] at h
      by_cases hg : status k &&& 0x02 ≠ 0
      · rw [if_pos hg] at h
        obtain ⟨h1, h2, h3⟩ := ih (k + 1) n h
        refine ⟨h1, by omega, ?_⟩
        intro m hm1 hm2
        rcases Nat.eq_or_lt_of_le hm1 with hm | hm
        · exact hm ▸ hg
        · exact h3 m hm hm2
      · rw [if_neg hg] at h
        obtain rfl : k = n := by simpa using h
        refine ⟨by simpa using hg, le_refl k, ?_⟩
        intro m hm1 hm2; omega

lemma ec_wait_ibf_fuel_stuck (status : Nat → Nat)
    (h : ∀ n, status n &&& 0x02 ≠ 0) :
    ∀ fuel k, ec_wait_ibf_fuel status fuel k = none := by
  intro fuel
  induction fuel with
  | zero => intro k; rfl
  | succ fuel ih => intro k; rw [ec_wait_ibf_fuel, if_pos (h k)]; exact ih (k + 1)

lemma ec_wait_ibf_fuel_complete (status : Nat → Nat) :
    ∀ fuel k, (∃ m, k ≤ m ∧ m < k + fuel ∧ status m &&& 0x02 = 0) →
      ∃ n, ec_wait_ibf_fuel status fuel k = some n := by
  intro fuel
  induction fuel with
  | zero => intro k ⟨m, h1, h2, _⟩; omega
  | succ fuel ih =>
      intro k ⟨m, h1, h2, h3⟩
      rw [ec_wait_ibf_fuel]
      by_cases hg : status k &&& 0x02 ≠ 0
      · rw [if_pos hg]
        refine ih (k + 1) ⟨m, ?_, by omega, h3⟩
        rcases Nat.eq_or_lt_of_le h1 with hm | hm
        · exact absurd (hm ▸ h3) hg
        · omega
      · rw [if_neg hg]; exact ⟨k, rfl⟩

lemma ec_wait_obf_fuel_sound (status : Nat → Nat) :
    ∀ fuel k n, ec_wait_obf_fuel status fuel k = some n →
      status n &&& 0x01 = 1 ∧ k ≤ n ∧ ∀ m, k ≤ m → m < n → status m &&& 0x01 = 0 := by
  intro fuel
  induction fuel with
  | zero => intro k n h; simp [ec_wait_obf_fuel] at h
  | succ fuel ih =>
      intro k n h
      rw [ec_wait_obf_fuel] at h
      by_cases hg : status k &&& 0x01 = 0
      · rw [if_pos hg] at h
        obtain ⟨h1, h2, h3⟩ := ih (k + 1) n h
        refine ⟨h1, by omega, ?_⟩
        intro m hm1 hm2
        rcases Nat.eq_or_lt_of_le hm1 with hm | hm
        · exact hm ▸ hg
        · exact h3 m hm hm2
      · rw [if_neg hg] at h
        obtain rfl : k = n := by simpa using h
        have hb : status k &&& 0x01 = status k % 2 := Nat.and_one_is_mod (status k)
        refine ⟨?_, le_refl k, ?_⟩
        · omega
        · intro m hm1 hm2; omega

lemma ec_wait_obf_fuel_stuck (status : Nat → Nat)
    (h : ∀ n, status n &&& 0x01 = 0) :
    ∀ fuel k, ec_wait_obf_fuel status fuel k = none := by
  intro fuel
  induction fuel with
  | zero => intro k; rfl
  | succ fuel ih => intro k; rw [ec_wait_obf_fuel, if_pos (h k)]; exact ih (k + 1)

lemma ec_wait_obf_fuel_complete (status : Nat → Nat) :
    ∀ fuel k, (∃ m, k ≤ m ∧ m < k + fuel ∧ status m &&& 0x01 = 1) →
      ∃ n, ec_wait_obf_fuel status fuel k = some n := by
  intro fuel
  induction fuel with
  | zero => intro k ⟨m, h1, h2, _⟩; omega
  | succ fuel ih =>
      intro k ⟨m, h1, h2, h3⟩
      rw [ec_wait_obf_fuel]
      by_cases hg : status k &&& 0x01 = 0
      · rw [if_pos hg]
        refine ih (k + 1) ⟨m, ?_, by omega, h3⟩
        rcases Nat.eq_or_lt_of_le h1 with hm | hm
        · rw [hm] at hg; omega
        · omega
      · rw [if_neg hg]; exact ⟨k, rfl⟩

/-- C5: the wait primitives poll the status port with no timeout.
`ec_wait_ibf` returns exactly when a status read has bit 1 equal to 0 (and
every earlier poll had it set); if bit 1 is set on every poll it never
returns, for any poll budget.  `ec_wait_obf` returns exactly when a status
read has bit 0 equal to 1 (and every earlier poll had it clear); if bit 0 is
clear on every poll it never returns.  Both directions of "exactly" are
stated: soundness and minimality of the returning poll, completeness when the
condition is eventually satisfied, and divergence when it never is. -/
theorem ec_wait_unbounded_poll (status : Nat → Nat) :
    (∀ fuel k n, ec_wait_ibf_fuel status fuel k = some n →
        status n &&& 0x02 = 0 ∧ ∀ m, k ≤ m → m < n → status m &&& 0x02 ≠ 0)
    ∧ ((∀ n, status n &&& 0x02 ≠ 0) → ∀ fuel k, ec_wait_ibf_fuel status fuel k = none)
    ∧ (∀ n, status n &&& 0x02 = 0 →
        ∃ m, ec_wait_ibf_fuel status (n + 1) 0 = some m)
    ∧ (∀ fuel k n, ec_wait_obf_fuel status fuel k = some n →
        status n &&& 0x01 = 1 ∧ ∀ m, k ≤ m → m < n → status m &&& 0x01 = 0)
    ∧ ((∀ n, status n &&& 0x01 = 0) → ∀ fuel k, ec_wait_obf_fuel status fuel k = none)
    ∧ (∀ n, status n &&& 0x01 = 1 →
        ∃ m, ec_wait_obf_fuel status (n + 1) 0 = some m) := by
  refine ⟨?_, ec_wait_ibf_fuel_stuck status, ?_, ?_, ec_wait_obf_fuel_stuck status, ?_⟩
  · intro fuel k n h
    obtain ⟨h1, _, h3⟩ := ec_wait_ibf_fuel_sound status fuel k n h
    exact ⟨h1, h3⟩
  · intro n hn
    exact ec_wait_ibf_fuel_complete status (n + 1) 0 ⟨n, by omega, by omega, hn⟩
  · intro fuel k n h
    obtain ⟨h1, _, h3⟩ := ec_wait_obf_fuel_sound status fuel k n h
    exact ⟨h1, h3⟩
  · intro n hn
    exact ec_wait_obf_fuel_complete status (n + 1) 0 ⟨n, by omega, by omega, hn⟩

/-- Witness for C5 at concrete inputs: with the status port stuck at 0x02
(IBF permanently set) the IBF wait is still spinning after 7 polls, and with
the status port stuck at 0 (OBF never set) the OBF wait is still spinning
after 7 polls; with status 0 the IBF wait returns at the very first poll. -/
theorem ec_wait_unbounded_poll_witness :
    ec_wait_ibf_fuel (fun _ => 0x02) 7 0 = none
    ∧ ec_wait_obf_fuel (fun _ => 0) 7 0 = none
    ∧ ∃ m, ec_wait_ibf_fuel (fun _ => 0) 1 0 = some m := by
  refine ⟨(ec_wait_unbounded_poll (fun _ => 0x02)).2.1 (fun n => by decide) 7 0,
    (ec_wait_unbounded_poll (fun _ => 0)).2.2.2.2.1 (fun n => by decide) 7 0,
    (ec_wait_unbounded_poll (fun _ => 0)).2.2.1 0 (by decide)⟩

/-- One emitted line of `ec_dump_selected` (src/main.c lines 45-67): the
register address, the raw value printed for it, and the optional interpreted
label printed by the `switch` (label text and the number printed with it). -/
structure DumpRecord : Type where
  addr : Nat
  raw : Nat
  label : Option (String × Nat)
deriving DecidableEq, Repr

/-- The `switch (registers[i])` of `ec_dump_selected`: 0x50 prints a
temperature line, 0x51 a fan-speed line, 0x52 a flag line computed as
`value & 0x01`; every other address falls through to `default` and prints
nothing beyond the raw value. -/
def interpretRegister (addr value : Nat) : Option (String × Nat) :=
  if addr = 0x50 then some ("Temperature", value)
  else if addr = 0x51 then some ("Fan Speed", value)
  else if addr = 0x52 then some ("Flag", value &&& 0x01)
  else none

/-- The `registers[]` array of `ec_dump_selected`. -/
def dumpRegisters : List Nat :=
  [0x50, 0x51, 0x52, 0x53, 0x54, 0x55, 0x56, 0x57, 0x58, 0x59]

/-- Observable program events.  `iopermReq p` is an `ioperm(p, 1, 1)` call;
`diag` is the `perror` diagnostic; `pio op` is one port operation issued by
the transaction engine; `record r` is one dump line; `acpiReport v` is
the report line of `acpi_check`; `warn` is the high-temperature
warning of the monitor loop; `sleepTick` is its `sleep(1)`; `spawnSampler` /
`joinSampler` are `pthread_create` / `pthread_join`.  `lockAcquire` /
`lockRelease` are in the vocabulary so lock usage is expressible: the C
source defines no mutex and never emits them. -/
inductive MEv : Type
  | iopermReq : Nat → MEv
  | diag : MEv
  | pio : PortOp → MEv
  | record : DumpRecord → MEv
  | acpiReport : Nat → MEv
  | warn : MEv
  | sleepTick : MEv
  | spawnSampler : MEv
  | joinSampler : MEv
  | lockAcquire : MEv
  | lockRelease : MEv
deriving DecidableEq, Repr

/-- The port operations among a list of program events. -/
def pioOf : List MEv → List PortOp
  | [] => []
  | MEv.pio op :: rest => op :: pioOf rest
  | _ :: rest => pioOf rest

/-- The dump records among a list of program events. -/
def recordsOf : List MEv → List DumpRecord
  | [] => []
  | MEv.record r :: rest => r :: recordsOf rest
  | _ :: rest => recordsOf rest

/-- The loop body of `ec_dump_selected` over a list of register addresses:
for each address, one `ec_read` against the simulated EC, then the dump
record for the value read. -/
def ec_dump_go (d : ECDev) : List Nat → ECDev × List MEv
  | [] => (d, [])
  | a :: rest =>
      let r := ec_read_run d a
      let t := ec_dump_go r.1 rest
      (t.1, (ec_readTrace a).map MEv.pio
            ++ [MEv.record { addr := a, raw := r.2, label := interpretRegister a r.2 }]
            ++ t.2)

/-- `ec_dump_selected` (src/main.c lines 45-67) against the simulated EC. -/
def ec_dump_selected_run (d : ECDev) : ECDev × List MEv :=
  ec_dump_go d dumpRegisters

/-- One iteration of the `ec_monitor_loop` body (src/main.c lines 71-78):
read register 0x00, warn if the value exceeds 75, sleep one second. -/
def ec_monitor_tick (d : ECDev) : ECDev × List MEv :=
  let r := ec_read_run d 0x00
  (r.1, (ec_readTrace 0x00).map MEv.pio
        ++ (if 75 < r.2 then [MEv.warn] else [])
        ++ [MEv.sleepTick])

/-- The first `n` iterations of the monitor loop, with the device threaded
through. -/
def ec_monitor_ticks (d : ECDev) : Nat → ECDev × List MEv
  | 0 => (d, [])
  | n + 1 =>
      let r := ec_monitor_tick d
      let t := ec_monitor_ticks r.1 n
      (t.1, r.2 ++ t.2)

/-- `ec_monitor_loop` itself: `while (true) { body }` followed by
`return NULL`.  `none` means the loop is still running after `fuel`
iterations; `some` would be the `return NULL` after the loop, reachable only
if the guard were ever false. -/
def ec_monitor_loop_fuel (d : ECDev) : Nat → Option ECDev
  | 0 => none
  | n + 1 =>
      if true then ec_monitor_loop_fuel (ec_monitor_tick d).1 n
      else some d

/-- Outcome of the two `ioperm` calls in `ec_init` (src/main.c lines 19-25):
whether each grant succeeds.  The OS decides these. -/
structure OSEnv : Type where
  ioperm_sc_ok : Bool
  ioperm_data_ok : Bool
deriving DecidableEq, Repr

/-- `ec_init` (src/main.c lines 19-25): `if (ioperm(EC_SC,1,1) ||
ioperm(EC_DATA,1,1)) { perror("ioperm"); exit(1); }`.  Returns the events it
emits and whether it succeeded; `||` short-circuits, so the data-port grant
is not attempted when the command-port grant already failed. -/
def ec_init_events (env : OSEnv) : List MEv × Bool :=
  if env.ioperm_sc_ok then
    if env.ioperm_data_ok then
      ([MEv.iopermReq EC_SC, MEv.iopermReq EC_DATA], true)
    else
      ([MEv.iopermReq EC_SC, MEv.iopermReq EC_DATA, MEv.diag], false)
  else ([MEv.iopermReq EC_SC, MEv.diag], false)

/-- Whether `ec_init` succeeds under `env`. -/
def ec_init_ok (env : OSEnv) : Bool :=
  env.ioperm_sc_ok && env.ioperm_data_ok

/-- `acpi_check` (src/main.c lines 82-87): one `ec_read(0x01)` and a report
line for the value read. -/
def acpi_check_run (d : ECDev) : ECDev × List MEv :=
  let r := ec_read_run d 0x01
  (r.1, (ec_readTrace 0x01).map MEv.pio ++ [MEv.acpiReport r.2])

/-- How the process run ends: `exited c` is `exit(c)` (or returning from
`main`); `blocked` means the main thread is parked forever in
`pthread_join` on the monitor thread. -/
inductive MainResult : Type
  | exited : Nat → MainResult
  | blocked : MainResult
deriving DecidableEq, Repr

/-- `main` (src/main.c lines 89-99) against the simulated EC with register
file `regs`: `ec_init`, then on success `ec_dump_selected`, `pthread_create`
of the monitor loop, `acpi_check`, `pthread_join`.  The returned event list
is that of the main thread; the events of the monitor thread are `ec_monitor_ticks`.
On `ec_init` failure the process exits with status 1 before any port
access. -/
def ec_main (env : OSEnv) (regs : Nat → Nat) : List MEv × MainResult :=
  let ie := ec_init_events env
  if ie.2 then
    let dump := ec_dump_selected_run (ECDev.start regs)
    let acpi := acpi_check_run dump.1
    (ie.1 ++ dump.2 ++ [MEv.spawnSampler] ++ acpi.2 ++ [MEv.joinSampler],
      MainResult.blocked)
  else (ie.1, MainResult.exited 1)

/-- Every port operation the process can issue in a run with `n` monitor-loop
iterations: those of the main thread plus those of the monitor thread. -/
def programPortOps (env : OSEnv) (regs : Nat → Nat) (n : Nat) : List PortOp :=
  pioOf (ec_main env regs).1 ++ pioOf (ec_monitor_ticks (ECDev.start regs) n).2

lemma pioOf_append (l1 l2 : List MEv) : pioOf (l1 ++ l2) = pioOf l1 ++ pioOf l2 := by
  induction l1 with
  | nil => rfl
  | cons e rest ih => cases e <;> simp [pioOf, ih]

lemma pioOf_map_pio (l : List PortOp) : pioOf (l.map MEv.pio) = l := by
  induction l with
  | nil => rfl
  | cons op rest ih => simp [pioOf, ih]

lemma recordsOf_append (l1 l2 : List MEv) :
    recordsOf (l1 ++ l2) = recordsOf l1 ++ recordsOf l2 := by
  induction l1 with
  | nil => rfl
  | cons e rest ih => cases e <;> simp [recordsOf, ih]

lemma recordsOf_map_pio (l : List PortOp) : recordsOf (l.map MEv.pio) = [] := by
  induction l with
  | nil => rfl
  | cons op rest ih => simp [recordsOf, ih]

lemma ec_init_events_ok (env : OSEnv) : (ec_init_events env).2 = ec_init_ok env := by
  obtain ⟨sc, data⟩ := env
  cases sc <;> cases data <;> rfl

lemma pioOf_init (env : OSEnv) : pioOf (ec_init_events env).1 = [] := by
  obtain ⟨sc, data⟩ := env
  cases sc <;> cases data <;> rfl

/-- The block of events one iteration of the `ec_dump_selected` loop emits for
address `a`: the port operations of one `ec_read(a)`, then the dump record. -/
def dumpChunk (regs : Nat → Nat) (a : Nat) : List MEv :=
  (ec_readTrace a).map MEv.pio
  ++ [MEv.record { addr := a, raw := regs a, label := interpretRegister a (regs a) }]

lemma ec_dump_go_chunks (regs : Nat → Nat) (as : List Nat) :
    ec_dump_go (ECDev.start regs) as =
      (ECDev.start regs, (as.map (dumpChunk regs)).flatten) := by
  induction as with
  | nil => simp [ec_dump_go]
  | cons a rest ih => simp [ec_dump_go, ec_read_run_start, ih, dumpChunk]

lemma recordsOf_chunks (regs : Nat → Nat) (as : List Nat) :
    recordsOf ((as.map (dumpChunk regs)).flatten) =
      as.map (fun a =>
        { addr := a, raw := regs a, label := interpretRegister a (regs a) : DumpRecord }) := by
  induction as with
  | nil => rfl
  | cons a rest ih =>
      simp [dumpChunk, recordsOf_append, recordsOf_map_pio, recordsOf, ih]

lemma pioOf_chunks (regs : Nat → Nat) (as : List Nat) :
    pioOf ((as.map (dumpChunk regs)).flatten) = (as.map ec_readTrace).flatten := by
  induction as with
  | nil => rfl
  | cons a rest ih =>
      simp [dumpChunk, pioOf_append, pioOf_map_pio, pioOf, ih, ec_readTrace]

/-- C6: one invocation of `ec_dump_selected` performs exactly one read
transaction for each of the catalog addresses 0x50 through 0x59, in that
order, and emits for each a record carrying the raw value, with an
interpreted label exactly for 0x50 (temperature), 0x51 (fan speed) and 0x52
(flag, computed as value AND 0x01), and no label for the rest. -/
theorem ec_dump_selected_spec (regs : Nat → Nat) :
    recordsOf (ec_dump_selected_run (ECDev.start regs)).2 =
      [{ addr := 0x50, raw := regs 0x50, label := some ("Temperature", regs 0x50) },
       { addr := 0x51, raw := regs 0x51, label := some ("Fan Speed", regs 0x51) },
       { addr := 0x52, raw := regs 0x52, label := some ("Flag", regs 0x52 &&& 0x01) },
       { addr := 0x53, raw := regs 0x53, label := none },
       { addr := 0x54, raw := regs 0x54, label := none },
       { addr := 0x55, raw := regs 0x55, label := none },
       { addr := 0x56, raw := regs 0x56, label := none },
       { addr := 0x57, raw := regs 0x57, label := none },
       { addr := 0x58, raw := regs 0x58, label := none },
       { addr := 0x59, raw := regs 0x59, label := none }]
    ∧ pioOf (ec_dump_selected_run (ECDev.start regs)).2 =
      ec_readTrace 0x50 ++ ec_readTrace 0x51 ++ ec_readTrace 0x52
      ++ ec_readTrace 0x53 ++ ec_readTrace 0x54 ++ ec_readTrace 0x55
      ++ ec_readTrace 0x56 ++ ec_readTrace 0x57 ++ ec_readTrace 0x58
      ++ ec_readTrace 0x59 := by
  refine ⟨?_, ?_⟩
  · rw [ec_dump_selected_run, ec_dump_go_chunks, recordsOf_chunks]
    simp [dumpRegisters, interpretRegister]
  · rw [ec_dump_selected_run, ec_dump_go_chunks, pioOf_chunks]
    simp [dumpRegisters]

lemma ec_monitor_tick_start (regs : Nat → Nat) :
    ec_monitor_tick (ECDev.start regs) =
      (ECDev.start regs,
        (ec_readTrace 0x00).map MEv.pio
        ++ (if 75 < regs 0 then [MEv.warn] else [])
        ++ [MEv.sleepTick]) := by
  simp [ec_monitor_tick, ec_read_run_start]

lemma ec_monitor_ticks_replicate (regs : Nat → Nat) (n : Nat) :
    ec_monitor_ticks (ECDev.start regs) n =
      (ECDev.start regs,
        (List.replicate n ((ec_readTrace 0x00).map MEv.pio
          ++ (if 75 < regs 0 then [MEv.warn] else [])
          ++ [MEv.sleepTick])).flatten) := by
  induction n with
  | zero => simp [ec_monitor_ticks]
  | succ n ih => simp [ec_monitor_ticks, ec_monitor_tick_start, ih, List.replicate_succ]

/-- C7: one monitor-loop tick issues exactly the port operations of one
`ec_read(0x00)` and leaves the simulated EC unchanged; the number of warnings
it emits is 1 when the value read exceeds 75 and 0 otherwise (value 80 gives
exactly one warning, values 50 and 75 give none); and `n` ticks are `n`
identical copies of the single tick, so no state beyond pacing carries
between ticks. -/
theorem ec_monitor_tick_spec (regs : Nat → Nat) (n : Nat) :
    (ec_monitor_tick (ECDev.start regs)).1 = ECDev.start regs
    ∧ pioOf (ec_monitor_tick (ECDev.start regs)).2 = ec_readTrace 0x00
    ∧ (ec_monitor_tick (ECDev.start regs)).2.count MEv.warn
        = (if 75 < regs 0 then 1 else 0)
    ∧ (ec_monitor_ticks (ECDev.start regs) n).2
        = (List.replicate n (ec_monitor_tick (ECDev.start regs)).2).flatten
    ∧ (ec_monitor_tick (ECDev.start (fun _ => 80))).2.count MEv.warn = 1
    ∧ (ec_monitor_tick (ECDev.start (fun _ => 50))).2.count MEv.warn = 0
    ∧ (ec_monitor_tick (ECDev.start (fun _ => 75))).2.count MEv.warn = 0 := by
  refine ⟨by rw [ec_monitor_tick_start], ?_, ?_, ?_, by decide, by decide, by decide⟩
  · rw [ec_monitor_tick_start]
    by_cases h : 75 < regs 0 <;>
      simp [h, pioOf_append, pioOf_map_pio, pioOf, ec_readTrace]
  · rw [ec_monitor_tick_start]
    by_cases h : 75 < regs 0 <;>
      simp [h, ec_readTrace, List.count_append, List.count_cons]
  · rw [ec_monitor_ticks_replicate, ec_monitor_tick_start]

lemma ec_monitor_loop_fuel_none : ∀ (d : ECDev) (fuel : Nat),
    ec_monitor_loop_fuel d fuel = none := by
  intro d fuel
  induction fuel generalizing d with
  | zero => rfl
  | succ n ih => simp [ec_monitor_loop_fuel, ih]

lemma ec_main_ok_events (env : OSEnv) (regs : Nat → Nat) (h : ec_init_ok env = true) :
    (ec_main env regs).1 =
      [MEv.iopermReq EC_SC, MEv.iopermReq EC_DATA]
      ++ (dumpRegisters.map (dumpChunk regs)).flatten
      ++ [MEv.spawnSampler]
      ++ ((ec_readTrace 0x01).map MEv.pio ++ [MEv.acpiReport (regs 0x01)])
      ++ [MEv.joinSampler]
    ∧ (ec_main env regs).2 = MainResult.blocked := by
  obtain ⟨sc, data⟩ := env
  rw [ec_init_ok] at h
  simp only [Bool.and_eq_true] at h
  obtain ⟨rfl, rfl⟩ : sc = true ∧ data = true := h
  refine ⟨?_, ?_⟩
  · simp [ec_main, ec_init_events, ec_dump_selected_run, ec_dump_go_chunks,
      acpi_check_run, ec_read_run_start]
  · simp [ec_main, ec_init_events]

/-- C9: when port access is granted, `main` performs, exactly once and in this
order: the two `ioperm` grants, the snapshot dump of registers 0x50..0x59, the
launch of the background sampler, the ad-hoc `acpi_check` read-and-report of
register 0x01, and then the join on the sampler thread, on which it blocks;
and the sampler loop itself never terminates, whatever the device state and
however many iterations it is given, so the normal path never naturally
ends. -/
theorem ec_main_startup_order (env : OSEnv) (regs : Nat → Nat) :
    (ec_init_ok env = true →
      (ec_main env regs).1 =
        [MEv.iopermReq EC_SC, MEv.iopermReq EC_DATA]
        ++ (dumpRegisters.map (dumpChunk regs)).flatten
        ++ [MEv.spawnSampler]
        ++ ((ec_readTrace 0x01).map MEv.pio ++ [MEv.acpiReport (regs 0x01)])
        ++ [MEv.joinSampler]
      ∧ (ec_main env regs).2 = MainResult.blocked)
    ∧ (∀ (d : ECDev) (fuel : Nat), ec_monitor_loop_fuel d fuel = none) := by
  exact ⟨fun h => ec_main_ok_events env regs h, ec_monitor_loop_fuel_none⟩

/-- Witness for C9 at concrete inputs: with both grants succeeding the main
thread ends up blocked on the join, and the sampler loop is still running
after 9 iterations. -/
theorem ec_main_startup_order_witness :
    (ec_main { ioperm_sc_ok := true, ioperm_data_ok := true } (fun _ => 0)).2
      = MainResult.blocked
    ∧ ec_monitor_loop_fuel (ECDev.start (fun _ => 0)) 9 = none := by
  exact ⟨((ec_main_startup_order { ioperm_sc_ok := true, ioperm_data_ok := true }
      (fun _ => 0)).1 (by decide)).2,
    (ec_main_startup_order { ioperm_sc_ok := true, ioperm_data_ok := true }
      (fun _ => 0)).2 (ECDev.start (fun _ => 0)) 9⟩

/-- C8: if the OS denies a port grant, the process exits with status 1 after
emitting the `perror` diagnostic, having issued no port access and having
requested each grant at most once (no retry; the short-circuit `||` even skips
the second grant when the first fails); when both grants succeed the process
never exits — permission failure is the only exit path. -/
theorem ec_main_permission_failure (env : OSEnv) (regs : Nat → Nat) :
    (ec_init_ok env = false →
        (ec_main env regs).2 = MainResult.exited 1
      ∧ MEv.diag ∈ (ec_main env regs).1
      ∧ (∀ op : PortOp, MEv.pio op ∉ (ec_main env regs).1)
      ∧ (ec_main env regs).1.count (MEv.iopermReq EC_SC) ≤ 1
      ∧ (ec_main env regs).1.count (MEv.iopermReq EC_DATA) ≤ 1)
    ∧ (ec_init_ok env = true → (ec_main env regs).2 = MainResult.blocked)
    ∧ (∀ c : Nat, (ec_main env regs).2 = MainResult.exited c →
        ec_init_ok env = false ∧ c = 1) := by
  obtain ⟨sc, data⟩ := env
  cases sc <;> cases data <;>
    simp [ec_init_ok, ec_main, ec_init_events, EC_SC, EC_DATA, List.count_cons]

/-- Witness for C8 at a concrete input: with the first grant denied the
process exits with status 1 and the diagnostic is emitted. -/
theorem ec_main_permission_failure_witness :
    (ec_main { ioperm_sc_ok := false, ioperm_data_ok := true } (fun _ => 0)).2
      = MainResult.exited 1
    ∧ MEv.diag ∈ (ec_main { ioperm_sc_ok := false, ioperm_data_ok := true }
        (fun _ => 0)).1 := by
  refine ⟨?_, ?_⟩
  · exact ((ec_main_permission_failure { ioperm_sc_ok := false, ioperm_data_ok := true }
      (fun _ => 0)).1 (by decide)).1
  · exact ((ec_main_permission_failure { ioperm_sc_ok := false, ioperm_data_ok := true }
      (fun _ => 0)).1 (by decide)).2.1

lemma pioOf_ticks (regs : Nat → Nat) (n : Nat) :
    pioOf (ec_monitor_ticks (ECDev.start regs) n).2 =
      (List.replicate n (ec_readTrace 0x00)).flatten := by
  induction n with
  | zero => rfl
  | succ n ih =>
      rw [ec_monitor_ticks]
      by_cases h : 75 < regs 0 <;>
        simp [ec_monitor_tick_start, h, pioOf_append, pioOf_map_pio, pioOf,
          List.replicate_succ, ih, ec_read_run_start, ec_readTrace]

lemma pioOf_main (env : OSEnv) (regs : Nat → Nat) :
    pioOf (ec_main env regs).1 =
      if ec_init_ok env then ((dumpRegisters ++ [0x01]).map ec_readTrace).flatten
      else [] := by
  cases hb : ec_init_ok env with
  | true =>
      obtain ⟨htr, _⟩ := ec_main_ok_events env regs hb
      rw [htr, pioOf_append, pioOf_append, pioOf_append, pioOf_append, pioOf_chunks,
        pioOf_append, pioOf_map_pio]
      simp [pioOf, hb, List.map_append, List.flatten_append]
  | false =>
      have h2 : (ec_init_events env).2 = false := by rw [ec_init_events_ok, hb]
      simp [ec_main, h2, pioOf_init]

lemma runTrace_flatten_reads (regs : Nat → Nat) (as : List Nat) :
    runTrace (ECDev.start regs) ((as.map ec_readTrace).flatten) =
      (ECDev.start regs, as.map regs) := by
  induction as with
  | nil => simp [runTrace]
  | cons a rest ih => simp [runTrace_append, runTrace_readTrace, ih]

lemma programPortOps_eq (env : OSEnv) (regs : Nat → Nat) (n : Nat) :
    programPortOps env regs n =
      (((if ec_init_ok env then dumpRegisters ++ [0x01] else [])
        ++ List.replicate n 0x00).map ec_readTrace).flatten := by
  rw [programPortOps, pioOf_main, pioOf_ticks]
  cases hb : ec_init_ok env <;>
    simp [List.map_append, List.flatten_append, List.map_replicate]

lemma mem_readTrace_ne_writeCmd (a : Nat) (op : PortOp)
    (h : op ∈ ec_readTrace a) : op ≠ PortOp.outb EC_SC 0x81 := by
  simp only [ec_readTrace, List.mem_cons] at h
  rcases h with rfl | rfl | rfl | rfl | rfl | rfl | h
  · simp
  · simp
  · simp
  · simp [EC_SC, EC_DATA]
  · simp
  · simp
  · simp at h

/-- C10: no run of the program ever issues a write transaction: every port
operation the process can issue (main thread plus any number of sampler
iterations, permission granted or not) differs from the write command
`outb(0x81, EC_SC)`, running all those operations against the simulated EC
leaves every EC register unchanged, and no `ec_write` port sequence occurs
within the port operations of the program. -/
theorem ec_program_never_writes (env : OSEnv) (regs : Nat → Nat) (n : Nat) :
    (∀ op ∈ programPortOps env regs n, op ≠ PortOp.outb EC_SC 0x81)
    ∧ (∀ x : Nat,
        (runTrace (ECDev.start regs) (programPortOps env regs n)).1.regs x = regs x)
    ∧ (∀ A V : Nat, ¬ List.Sublist (ec_writeTrace A V) (programPortOps env regs n)) := by
  have hmem : ∀ op ∈ programPortOps env regs n, ∃ a, op ∈ ec_readTrace a := by
    intro op hop
    rw [programPortOps_eq, List.mem_flatten] at hop
    obtain ⟨l, hl, hop⟩ := hop
    rw [List.mem_map] at hl
    obtain ⟨a, _, rfl⟩ := hl
    exact ⟨a, hop⟩
  have h1 : ∀ op ∈ programPortOps env regs n, op ≠ PortOp.outb EC_SC 0x81 := by
    intro op hop
    obtain ⟨a, ha⟩ := hmem op hop
    exact mem_readTrace_ne_writeCmd a op ha
  refine ⟨h1, ?_, ?_⟩
  · intro x
    rw [programPortOps_eq, runTrace_flatten_reads]
    rfl
  · intro A V hsub
    have hmem81 : PortOp.outb EC_SC 0x81 ∈ programPortOps env regs n :=
      hsub.subset (by simp [ec_writeTrace])
    exact h1 _ hmem81 rfl

/-- Witness for C10 at concrete inputs: in a run with both grants succeeding
and 2 sampler iterations, a sample member of the port-operation list differs
from the write command, register 0x50 is unchanged after the whole run, and
the `ec_write(0, 1)` sequence is not a sublist of the run. -/
theorem ec_program_never_writes_witness :
    PortOp.waitIbf ≠ PortOp.outb EC_SC 0x81
    ∧ (runTrace (ECDev.start (fun _ => 7))
        (programPortOps { ioperm_sc_ok := true, ioperm_data_ok := true }
          (fun _ => 7) 2)).1.regs 0x50 = 7
    ∧ ¬ List.Sublist (ec_writeTrace 0 1)
        (programPortOps { ioperm_sc_ok := true, ioperm_data_ok := true }
          (fun _ => 7) 2) := by
  refine ⟨?_, ?_, ?_⟩
  · exact (ec_program_never_writes { ioperm_sc_ok := true, ioperm_data_ok := true }
      (fun _ => 7) 2).1 PortOp.waitIbf (by decide)
  · exact (ec_program_never_writes { ioperm_sc_ok := true, ioperm_data_ok := true }
      (fun _ => 7) 2).2.1 0x50
  · exact (ec_program_never_writes { ioperm_sc_ok := true, ioperm_data_ok := true }
      (fun _ => 7) 2).2.2 0 1

/-- C3 (refuted on the code): the source defines no mutual-exclusion lock at
all, so no transaction is wrapped in a critical section.  In a run with both
grants succeeding, the event list of the main thread and the per-tick event
list of the sampler contain zero lock-acquire and zero lock-release events,
while both contexts do issue port operations (66 from the dump and
diagnostic reads, 6 from each sampler tick) — so port transactions of the two
contexts are issued with no lock held anywhere. -/
theorem ec_no_lock_discipline :
    (ec_main { ioperm_sc_ok := true, ioperm_data_ok := true } (fun _ => 0)).1.count
        MEv.lockAcquire = 0
    ∧ (ec_main { ioperm_sc_ok := true, ioperm_data_ok := true } (fun _ => 0)).1.count
        MEv.lockRelease = 0
    ∧ (ec_monitor_tick (ECDev.start (fun _ => 0))).2.count MEv.lockAcquire = 0
    ∧ (ec_monitor_tick (ECDev.start (fun _ => 0))).2.count MEv.lockRelease = 0
    ∧ (pioOf (ec_main { ioperm_sc_ok := true, ioperm_data_ok := true }
        (fun _ => 0)).1).length = 66
    ∧ (pioOf (ec_monitor_tick (ECDev.start (fun _ => 0))).2).length = 6 := by
  decide

end ECDriver
